import Mathlib

/-!
Shallow embedding of the bun-web-socket-server dispatch core.

Source: `src/src/loggers/server-logger.ts` (contains `ServerLogger` and
`ServerDriver`).  The collaborators `MiddlewareDriver` and `RouteDriver`
are imported by the source but their files are not part of the sources
available here; where a claim depends on them they are modelled from the
spec (see the doc comments of `MiddlewareDriver.startMiddleware` and
`RouteDriver.register` / `RouteDriver.findInRouteRegistry`).

Side effects (logging, handler invocation, upgrade attempts, callback
invocations) are made observable as an explicit event trace returned next
to each function's result.
-/

/-- Model of a JSON value as far as the payloads of this program need:
flat values placed under string keys. -/
inductive JsonValue where
  | str (s : String)
  | num (n : Int)
  | boolean (b : Bool)
  | null
deriving DecidableEq

/-- Escaping of one character inside a JSON string literal, as
`JSON.stringify` performs it for the characters this program can produce. -/
def jsonEscapeChar (c : Char) : String :=
  if c = '"' then "\\\""
  else if c = '\\' then "\\\\"
  else if c = '\n' then "\\n"
  else if c = '\r' then "\\r"
  else if c = '\t' then "\\t"
  else String.singleton c

/-- Escaping of a whole string for inclusion in a JSON document. -/
def jsonEscape (s : String) : String :=
  String.join (s.toList.map jsonEscapeChar)

/-- Serialization of one JSON value. -/
def jsonValueStringify : JsonValue → String
  | JsonValue.str s => "\"" ++ jsonEscape s ++ "\""
  | JsonValue.num n => toString n
  | JsonValue.boolean b => if b then "true" else "false"
  | JsonValue.null => "null"

/-- Model of `JSON.stringify` on a flat string-keyed object
(`{ [prop: string]: any }` in the source), keys in insertion order. -/
def jsonStringify (payload : List (String × JsonValue)) : String :=
  "\x7b" ++ String.intercalate ","
      (payload.map (fun p => "\"" ++ jsonEscape p.1 ++ "\":" ++ jsonValueStringify p.2))
    ++ "\x7d"

/-- The inbound request; the dispatch code only reads `req.url`. -/
structure Request where
  url : String
deriving DecidableEq

/-- Model of the JavaScript `Response` object as this program builds it:
a body string, a header list and a status code. -/
structure Response where
  body : String
  headers : List (String × String)
  status : Nat
deriving DecidableEq

/-- `RouteType` from `src/type-def/enums`, as used by the dispatch switch. -/
inductive RouteType where
  | WEB
  | WEB_SOCKET
deriving DecidableEq

/-- The per-exchange `RouteHandleContext` built by the dispatcher.  The
source also stores constant collaborator references
(`server`, `WebSocketDriver`, `AuthorizationDriver`,
`ServerDriverInterface`); those are fixed for the whole driver and carry
no per-exchange data, so the embedding keeps the two per-exchange
fields the claims are about. -/
structure RouteHandleContext where
  authLevelForRequestedRoute : Nat
  request : Request
deriving DecidableEq

/-- A route handler (`WebRouteHandle` / `WebSocketRouteHandle`): its
`handle` capability.  The `onUpgradeSuccess` / `onUpgradeFailed`
callbacks are recorded as trace events when invoked. -/
structure RouteHandle where
  handle : RouteHandleContext → Response

/-- A registered `Route` descriptor. -/
structure Route where
  path : String
  type : RouteType
  authLevel : Nat
  handler : RouteHandle

/-- Observable side effects of a dispatch, in program order. -/
inductive Event where
  | logInfo (msg : String)
  | logError (msg : String)
  | routeLookup (url : String)
  | middlewareRun (ctx : RouteHandleContext)
  | handlerInvoked (ctx : RouteHandleContext)
  | transportUpgrade (url : String)
  | onUpgradeSuccess
  | onUpgradeFailed
deriving DecidableEq

/-- A middleware chain link: `(Context) → boolean`. -/
def MiddlewareLink : Type := RouteHandleContext → Bool

/-- Modelled from the spec: `MiddlewareDriver.startMiddleware` is not in
the available sources; §4.3 gives its contract — links run strictly in
registration order, the first link returning reject stops the chain, a
chain with zero links accepts by default. -/
def MiddlewareDriver.startMiddleware (links : List MiddlewareLink)
    (ctx : RouteHandleContext) : Bool :=
  match links with
  | [] => true
  | l :: rest =>
    if l ctx then MiddlewareDriver.startMiddleware rest ctx else false

/-- Instrumented run of the middleware chain from 1-indexed position `s`:
also returns the positions of the links that executed, in execution
order. -/
def MiddlewareDriver.runFrom (links : List MiddlewareLink)
    (ctx : RouteHandleContext) (s : Nat) : Bool × List Nat :=
  match links with
  | [] => (true, [])
  | l :: rest =>
    if l ctx then
      let r := MiddlewareDriver.runFrom rest ctx (s + 1)
      (r.1, s :: r.2)
    else (false, [s])

/-- Instrumented middleware chain run, positions 1-indexed. -/
def MiddlewareDriver.startMiddlewareRun (links : List MiddlewareLink)
    (ctx : RouteHandleContext) : Bool × List Nat :=
  MiddlewareDriver.runFrom links ctx 1

/-- Modelled from the spec: `RouteDriver`'s registry lookup is not in the
available sources; §4.1 gives `resolve(path) → Route | NotFound` as
exact-path lookup.  The dispatcher calls it as
`this.RouteDriver.findInRouteRegistry(req.url)`. -/
def RouteDriver.findInRouteRegistry (routes : List Route) (path : String) :
    Option Route :=
  routes.find? (fun r => r.path == path)

/-- Registration failure: `DuplicatePathError` from §4.1. -/
inductive RegisterError where
  | DuplicatePathError
deriving DecidableEq

/-- Modelled from the spec: `RouteDriver`'s registration is not in the
available sources; §4.1 gives
`register(route) → ok | DuplicatePathError` — registering two routes
with the same path fails and does not silently overwrite. -/
def RouteDriver.register (routes : List Route) (route : Route) :
    Except RegisterError (List Route) :=
  if (routes.find? (fun r => r.path == route.path)).isSome then
    Except.error RegisterError.DuplicatePathError
  else
    Except.ok (routes ++ [route])

/-- The registry state after an attempted registration: unchanged when
registration failed. -/
def RouteDriver.registryAfter (routes : List Route) (route : Route) :
    List Route :=
  match RouteDriver.register routes route with
  | Except.ok rs => rs
  | Except.error _ => routes

/-- The `ServerDriver` state the dispatch path reads: the route registry
held by its `RouteDriver` and the middleware chain held by its
`MiddlewareDriver`.  (`port`, `rootUrl`, the logger handle and the
`ServerDriverInterface` bundle carry no dispatch-relevant state.) -/
structure ServerDriver where
  routes : List Route
  middleware : List MiddlewareLink

/-- `ServerDriver.json`: builds a `Response` whose body is
`JSON.stringify(payload)`, with a `content-type: application/json`
header and the supplied status. -/
def ServerDriver.json (payload : List (String × JsonValue)) (status : Nat) :
    Response :=
  { body := jsonStringify payload
    headers := [("content-type", "application/json")]
    status := status }

/-- The per-exchange context literal both dispatch branches build:
`authLevelForRequestedRoute: route.authLevel, request: req` (plus the
constant collaborator references, see `RouteHandleContext`). -/
def ServerDriver.dispatchContext (req : Request) (route : Route) :
    RouteHandleContext :=
  { authLevelForRequestedRoute := route.authLevel, request := req }

/-- The fetch closure `serve()` installs:
`if (server.upgrade(req)) return; else return new Response('Not Found', { status: 404 })`.
`upgradeOk` is the transport's answer to `server.upgrade(req)`; the
attempt itself is recorded as a `transportUpgrade` event. -/
def ServerDriver.serveFetch (req : Request) (upgradeOk : Bool) :
    Option Response × List Event :=
  if upgradeOk then
    (none, [Event.transportUpgrade req.url])
  else
    (some { body := "Not Found", headers := [], status := 404 },
      [Event.transportUpgrade req.url])

/-- `ServerDriver.handleWebRoute`: builds the context, runs the
middleware chain, returns the 403 JSON rejection when it reports
`false`, otherwise returns `route.handler.handle(context)` verbatim. -/
def ServerDriver.handleWebRoute (sd : ServerDriver) (req : Request)
    (route : Route) : Response × List Event :=
  let context := ServerDriver.dispatchContext req route
  let res := MiddlewareDriver.startMiddleware sd.middleware context
  if res = false then
    (ServerDriver.json [("message", JsonValue.str "Forbidden.")] 403,
      [Event.middlewareRun context])
  else
    (route.handler.handle context,
      [Event.middlewareRun context, Event.handlerInvoked context])

/-- `ServerDriver.handleWebSocketRoute`, embedded as written: logs, builds
the context, invokes `route.handler.handle(context)` (result discarded),
then runs `if (false) { …error/onUpgradeFailed… } else { …info/onUpgradeSuccess… }`.
The `upgrade2WebSocket` call and the `startMiddleware` call are commented
out in the source, so neither appears in the trace.  The method returns
`void`. -/
def ServerDriver.handleWebSocketRoute (sd : ServerDriver) (req : Request)
    (route : Route) : List Event :=
  let context := ServerDriver.dispatchContext req route
  let _ := route.handler.handle context
  let _ := sd
  [Event.logInfo ("WebSocket route " ++ route.path ++ " connected"),
   Event.logInfo "context initialized",
   Event.handlerInvoked context] ++
  (if false then
    [Event.logError "Failed to upgrade request to websocket.",
     Event.onUpgradeFailed]
  else
    [Event.logInfo "Upgraded request to websocket.",
     Event.onUpgradeSuccess])

/-- `ServerDriver.bunFetchHandler`: registry lookup on `req.url`, 404 for
a missing route, otherwise the `route.type` switch. -/
def ServerDriver.bunFetchHandler (sd : ServerDriver) (req : Request) :
    Option Response × List Event :=
  let route? := RouteDriver.findInRouteRegistry sd.routes req.url
  match route? with
  | none =>
    (some { body := "Not Found", headers := [], status := 404 },
      [Event.routeLookup req.url])
  | some route =>
    match route.type with
    | RouteType.WEB =>
      let r := ServerDriver.handleWebRoute sd req route
      (some r.1, Event.routeLookup req.url :: r.2)
    | RouteType.WEB_SOCKET =>
      (none,
        Event.routeLookup req.url :: ServerDriver.handleWebSocketRoute sd req route)

/-- `ServerDriver.upgrade2WebSocket` (dead code in the source: its only
call site is commented out): attempts the transport upgrade, returns the
403 Forbidden JSON response when the transport refused, otherwise the
(truthy) upgrade result, modelled as `none`. -/
def ServerDriver.upgrade2WebSocket (req : Request) (upgradeOk : Bool) :
    Option Response × List Event :=
  if upgradeOk = false then
    (some (ServerDriver.json [("message", JsonValue.str "Forbidden.")] 403),
      [Event.transportUpgrade req.url])
  else
    (none, [Event.transportUpgrade req.url])

/-- Discriminator: is this event a middleware-chain execution? -/
def Event.isMiddlewareRun : Event → Bool
  | Event.middlewareRun _ => true
  | _ => false

/-- Discriminator: is this event a registry lookup? -/
def Event.isRouteLookup : Event → Bool
  | Event.routeLookup _ => true
  | _ => false

/-- Discriminator: is this event an invocation of the transport's upgrade
entry point? -/
def Event.isTransportUpgrade : Event → Bool
  | Event.transportUpgrade _ => true
  | _ => false

/-- Discriminator: is this event a handler invocation? -/
def Event.isHandlerInvoked : Event → Bool
  | Event.handlerInvoked _ => true
  | _ => false

/-! ## Concrete fixtures used by witnesses and counterexamples -/

/-- A fixed 200 response a test handler returns. -/
def respOk : Response := { body := "ok", headers := [], status := 200 }

/-- A test REQUEST_RESPONSE route at path `/w`. -/
def routeW : Route :=
  { path := "/w", type := RouteType.WEB, authLevel := 0,
    handler := { handle := fun _ => respOk } }

/-- A second route sharing the path `/w` (for duplicate registration). -/
def routeW2 : Route :=
  { path := "/w", type := RouteType.WEB_SOCKET, authLevel := 1,
    handler := { handle := fun _ => respOk } }

/-- A test PERSISTENT_CONNECTION route at path `/chat`, authLevel 1. -/
def routeWS : Route :=
  { path := "/chat", type := RouteType.WEB_SOCKET, authLevel := 1,
    handler := { handle := fun _ => respOk } }

/-- A request to `/w`. -/
def reqW : Request := { url := "/w" }

/-- A request to `/chat`. -/
def reqWS : Request := { url := "/chat" }

/-- A request to an unregistered path. -/
def reqMissing : Request := { url := "/missing" }

/-- A test context. -/
def ctx0 : RouteHandleContext :=
  { authLevelForRequestedRoute := 0, request := reqW }

/-- A chain whose second link is the first to reject. -/
def chain0 : List MiddlewareLink :=
  [fun _ => true, fun _ => false, fun _ => true]

/-- A driver with an empty registry. -/
def sdEmpty : ServerDriver := { routes := [], middleware := [] }

/-- A driver whose single middleware link rejects every exchange. -/
def sdReject : ServerDriver :=
  { routes := [routeW], middleware := [fun _ => false] }

/-- A driver with an empty middleware chain (accepts by default). -/
def sdAccept : ServerDriver := { routes := [routeW], middleware := [] }

/-- A driver holding the `/chat` socket route behind a rejecting
middleware link. -/
def sdWSReject : ServerDriver :=
  { routes := [routeWS], middleware := [fun _ => false] }

/-! ## Shared lemmas -/

/-- The instrumented run computes the same accept/reject answer as
`startMiddleware`. -/
theorem MiddlewareDriver.runFrom_fst (links : List MiddlewareLink)
    (ctx : RouteHandleContext) :
    ∀ s, (MiddlewareDriver.runFrom links ctx s).1 =
      MiddlewareDriver.startMiddleware links ctx := by
  induction links with
  | nil => intro s; rfl
  | cons l rest ih =>
    intro s
    unfold MiddlewareDriver.runFrom MiddlewareDriver.startMiddleware
    by_cases hl : l ctx
    · simp [hl, ih (s + 1)]
    · simp [hl]

/-- If the links before position `k` (1-indexed) all accept and the link at
position `k` rejects, the instrumented run from start position `s` executes
exactly the first `k` links in order and rejects. -/
theorem MiddlewareDriver.runFrom_reject (ctx : RouteHandleContext) :
    ∀ (links : List MiddlewareLink) (k s : Nat), 1 ≤ k →
      (links.take (k - 1)).all (fun l => l ctx) = true →
      (links[k - 1]?).map (fun l => l ctx) = some false →
      MiddlewareDriver.runFrom links ctx s = (false, List.range' s k) := by
  intro links
  induction links with
  | nil =>
    intro k s _ _ hrej
    simp at hrej
  | cons l rest ih =>
    intro k s hk hacc hrej
    match k, hk with
    | 1, _ =>
      simp at hrej
      unfold MiddlewareDriver.runFrom
      simp [hrej, List.range'_one]
    | (m + 2), _ =>
      have htake : (List.take (m + 1) (l :: rest)) = l :: List.take m rest := rfl
      rw [show m + 2 - 1 = m + 1 from rfl, htake, List.all_cons] at hacc
      have hl : l ctx = true := (Bool.and_eq_true _ _ |>.mp hacc).1
      have hrest : (rest.take m).all (fun f => f ctx) = true :=
        (Bool.and_eq_true _ _ |>.mp hacc).2
      have hrej' : (rest[m + 1 - 1]?).map (fun f => f ctx) = some false := by
        simpa using hrej
      have hmtake : rest.take (m + 1 - 1) = rest.take m := rfl
      unfold MiddlewareDriver.runFrom
      rw [hl]
      simp only []
      rw [ih (m + 1) (s + 1) (by omega) (by rw [hmtake]; exact hrest) hrej']
      simp [List.range'_succ]

/-! ## Claim theorems -/

/-- C6: `json(payload, status)` returns a `Response` whose body is exactly
`JSON.stringify(payload)`, whose content-type header is
`application/json`, and whose status is exactly the supplied status (a
pure Lean function, hence side-effect free); instantiated on the spec's
`/health` payload `{status:"ok"}` and the Forbidden payload. -/
theorem json_builder_contract (payload : List (String × JsonValue))
    (status : Nat) :
    (ServerDriver.json payload status).body = jsonStringify payload ∧
    (ServerDriver.json payload status).headers =
      [("content-type", "application/json")] ∧
    (ServerDriver.json payload status).status = status ∧
    (ServerDriver.json [("status", JsonValue.str "ok")] 200).body =
      "\x7b\"status\":\"ok\"\x7d" ∧
    (ServerDriver.json [("message", JsonValue.str "Forbidden.")] 403).body =
      "\x7b\"message\":\"Forbidden.\"\x7d" :=
  ⟨rfl, rfl, rfl, by decide, by decide⟩

/-- C3: the fetch handler installed by `serve()` attempts the transport
upgrade unconditionally and first; it performs no registry lookup, runs no
middleware and invokes no handler (so the route-dispatching
`bunFetchHandler`, whose every run begins with a registry lookup, is never
invoked); it returns nothing when the upgrade succeeds and a plain-text
404 `Not Found` response otherwise. -/
theorem serveFetch_upgrades_unconditionally (req : Request)
    (upgradeOk : Bool) :
    (ServerDriver.serveFetch req upgradeOk).2 =
      [Event.transportUpgrade req.url] ∧
    (ServerDriver.serveFetch req upgradeOk).1 =
      (if upgradeOk then none
       else some { body := "Not Found", headers := [], status := 404 }) ∧
    ((ServerDriver.serveFetch req upgradeOk).2.all
      fun e => !e.isRouteLookup) = true ∧
    ((ServerDriver.serveFetch req upgradeOk).2.all
      fun e => !e.isMiddlewareRun) = true ∧
    ((ServerDriver.serveFetch req upgradeOk).2.all
      fun e => !e.isHandlerInvoked) = true := by
  unfold ServerDriver.serveFetch
  cases upgradeOk <;>
    simp [Event.isRouteLookup, Event.isMiddlewareRun, Event.isHandlerInvoked]

/-- C4 counterexample: dispatching the unregistered path `/missing`
returns the plain-text response `Not Found` with an empty header list —
in particular without the `content-type: application/json` header a JSON
response carries — so the 404 produced for a missing route is not a JSON
response. -/
theorem notFound_response_not_json :
    (ServerDriver.bunFetchHandler sdEmpty reqMissing).1 =
      some { body := "Not Found", headers := [], status := 404 } ∧
    (("content-type", "application/json") ∈
      ((ServerDriver.bunFetchHandler sdEmpty reqMissing).1.getD
        { body := "", headers := [], status := 0 }).headers) = False := by
  constructor
  · decide
  · simp only [eq_iff_iff, iff_false]
    decide

/-- C4 amended: for every dispatched path with no registry entry,
dispatch returns the uniform plain-text 404 response with body
`Not Found` and no headers, produced straight after the registry lookup —
before any route-type branching, middleware or handler — so the same
not-found signal is produced whatever route type the caller targeted. -/
theorem bunFetchHandler_notFound (sd : ServerDriver) (req : Request)
    (h : RouteDriver.findInRouteRegistry sd.routes req.url = none) :
    (ServerDriver.bunFetchHandler sd req).1 =
      some { body := "Not Found", headers := [], status := 404 } ∧
    (ServerDriver.bunFetchHandler sd req).2 = [Event.routeLookup req.url] := by
  unfold ServerDriver.bunFetchHandler
  rw [h]
  exact ⟨rfl, rfl⟩

/-- C4 witness: the amended not-found behaviour at the concrete
unregistered path `/missing`. -/
theorem bunFetchHandler_notFound_witness :
    RouteDriver.findInRouteRegistry sdEmpty.routes reqMissing.url = none ∧
    (ServerDriver.bunFetchHandler sdEmpty reqMissing).1 =
      some { body := "Not Found", headers := [], status := 404 } :=
  ⟨rfl, (bunFetchHandler_notFound sdEmpty reqMissing rfl).1⟩

/-- C5: whenever the middleware chain reports rejection for a
REQUEST_RESPONSE dispatch, `handleWebRoute` returns the 403 JSON response
with body `{"message":"Forbidden."}` and the route's handler is not
invoked. -/
theorem handleWebRoute_reject_403 (sd : ServerDriver) (req : Request)
    (route : Route)
    (h : MiddlewareDriver.startMiddleware sd.middleware
      (ServerDriver.dispatchContext req route) = false) :
    (ServerDriver.handleWebRoute sd req route).1 =
      ServerDriver.json [("message", JsonValue.str "Forbidden.")] 403 ∧
    (ServerDriver.handleWebRoute sd req route).1.status = 403 ∧
    (ServerDriver.handleWebRoute sd req route).1.body =
      "\x7b\"message\":\"Forbidden.\"\x7d" ∧
    ((ServerDriver.handleWebRoute sd req route).2.all
      fun e => !e.isHandlerInvoked) = true := by
  have hgoal : ServerDriver.handleWebRoute sd req route =
      (ServerDriver.json [("message", JsonValue.str "Forbidden.")] 403,
        [Event.middlewareRun (ServerDriver.dispatchContext req route)]) := by
    unfold ServerDriver.handleWebRoute
    simp [h]
  have h1 : (ServerDriver.handleWebRoute sd req route).1 =
      ServerDriver.json [("message", JsonValue.str "Forbidden.")] 403 := by
    rw [hgoal]
  refine ⟨h1, ?_, ?_, ?_⟩
  · rw [h1]; rfl
  · rw [h1]; decide
  · rw [hgoal]; simp [Event.isHandlerInvoked]

/-- C5 witness: the rejecting driver `sdReject` at the concrete route
`/w` yields the 403 Forbidden response. -/
theorem handleWebRoute_reject_403_witness :
    MiddlewareDriver.startMiddleware sdReject.middleware
      (ServerDriver.dispatchContext reqW routeW) = false ∧
    (ServerDriver.handleWebRoute sdReject reqW routeW).1.status = 403 ∧
    (ServerDriver.handleWebRoute sdReject reqW routeW).1.body =
      "\x7b\"message\":\"Forbidden.\"\x7d" :=
  ⟨rfl, (handleWebRoute_reject_403 sdReject reqW routeW rfl).2.1,
    (handleWebRoute_reject_403 sdReject reqW routeW rfl).2.2.1⟩

/-- C7: whenever the middleware chain accepts a REQUEST_RESPONSE dispatch,
`handleWebRoute` invokes `route.handler.handle(context)` exactly once
(the trace holds exactly one handler invocation, carrying the dispatch
context) and returns the handler's response verbatim. -/
theorem handleWebRoute_accept_verbatim (sd : ServerDriver) (req : Request)
    (route : Route)
    (h : MiddlewareDriver.startMiddleware sd.middleware
      (ServerDriver.dispatchContext req route) = true) :
    (ServerDriver.handleWebRoute sd req route).1 =
      route.handler.handle (ServerDriver.dispatchContext req route) ∧
    (ServerDriver.handleWebRoute sd req route).2.count
      (Event.handlerInvoked (ServerDriver.dispatchContext req route)) = 1 ∧
    ((ServerDriver.handleWebRoute sd req route).2.filter
      fun e => e.isHandlerInvoked) =
      [Event.handlerInvoked (ServerDriver.dispatchContext req route)] := by
  have hgoal : ServerDriver.handleWebRoute sd req route =
      (route.handler.handle (ServerDriver.dispatchContext req route),
        [Event.middlewareRun (ServerDriver.dispatchContext req route),
          Event.handlerInvoked (ServerDriver.dispatchContext req route)]) := by
    unfold ServerDriver.handleWebRoute
    simp [h]
  refine ⟨by rw [hgoal], ?_, ?_⟩
  · rw [hgoal]
    simp [List.count_cons]
  · rw [hgoal]
    simp [List.filter, Event.isHandlerInvoked]

/-- C7 witness: with the empty (hence accepting) middleware chain of
`sdAccept`, the handler's 200 response for `/w` is returned verbatim. -/
theorem handleWebRoute_accept_verbatim_witness :
    MiddlewareDriver.startMiddleware sdAccept.middleware
      (ServerDriver.dispatchContext reqW routeW) = true ∧
    (ServerDriver.handleWebRoute sdAccept reqW routeW).1 =
      routeW.handler.handle (ServerDriver.dispatchContext reqW routeW) :=
  ⟨rfl, (handleWebRoute_accept_verbatim sdAccept reqW routeW rfl).1⟩

/-- C8: on a single exchange the middleware links execute strictly in
registration order: if the links at 1-indexed positions below `k` all
accept and the link at position `k` rejects (so `k` is the first
rejecting position), then the chain executes exactly the links
`1, …, k` in that order, each exactly once, and rejects; a chain with
zero links accepts; and the instrumented run agrees with
`startMiddleware`'s accept/reject answer. -/
theorem middleware_chain_order (links : List MiddlewareLink)
    (ctx : RouteHandleContext) (k : Nat) (hk : 1 ≤ k)
    (hacc : (links.take (k - 1)).all (fun l => l ctx) = true)
    (hrej : (links[k - 1]?).map (fun l => l ctx) = some false) :
    MiddlewareDriver.startMiddlewareRun links ctx = (false, List.range' 1 k) ∧
    MiddlewareDriver.startMiddleware [] ctx = true ∧
    (MiddlewareDriver.startMiddlewareRun links ctx).1 =
      MiddlewareDriver.startMiddleware links ctx := by
  refine ⟨?_, rfl, MiddlewareDriver.runFrom_fst links ctx 1⟩
  exact MiddlewareDriver.runFrom_reject ctx links k 1 hk hacc hrej

/-- C8 witness: on the concrete chain `chain0` the second link is the
first to reject, so exactly links 1 and 2 run, in order, and the chain
rejects. -/
theorem middleware_chain_order_witness :
    1 ≤ 2 ∧
    ((chain0.take 1).all fun l => l ctx0) = true ∧
    (chain0[1]?).map (fun l => l ctx0) = some false ∧
    MiddlewareDriver.startMiddlewareRun chain0 ctx0 =
      (false, List.range' 1 2) :=
  ⟨by decide, rfl, rfl, (middleware_chain_order chain0 ctx0 2 (by decide) rfl rfl).1⟩

/-- C9: registering a route at an already-registered path returns
`DuplicatePathError` rather than overwriting, and afterwards resolving
that path still yields exactly the originally registered route. -/
theorem register_duplicate_path (routes : List Route) (p : String)
    (r dup : Route)
    (h : RouteDriver.findInRouteRegistry routes p = some r)
    (hp : dup.path = p) :
    RouteDriver.register routes dup =
      Except.error RegisterError.DuplicatePathError ∧
    RouteDriver.findInRouteRegistry
      (RouteDriver.registryAfter routes dup) p = some r := by
  have hreg : RouteDriver.register routes dup =
      Except.error RegisterError.DuplicatePathError := by
    unfold RouteDriver.register
    rw [hp]
    unfold RouteDriver.findInRouteRegistry at h
    simp [h]
  refine ⟨hreg, ?_⟩
  unfold RouteDriver.registryAfter
  rw [hreg]
  exact h

/-- C9 witness: registering `routeW2` while `routeW` already occupies
path `/w` fails with `DuplicatePathError` and `/w` still resolves to
`routeW`. -/
theorem register_duplicate_path_witness :
    RouteDriver.findInRouteRegistry [routeW] "/w" = some routeW ∧
    routeW2.path = "/w" ∧
    RouteDriver.register [routeW] routeW2 =
      Except.error RegisterError.DuplicatePathError :=
  ⟨rfl, rfl, (register_duplicate_path [routeW] "/w" routeW routeW2 rfl rfl).1⟩

/-- C10: whichever dispatch branch runs, the context handed to the
middleware chain or to the handler is exactly the one built at dispatch
time: its `authLevelForRequestedRoute` equals the resolved route's
`authLevel` and its raw exchange is the inbound request, unchanged. -/
theorem dispatch_context_immutable (sd : ServerDriver) (req : Request)
    (route : Route) (ctx : RouteHandleContext)
    (h : Event.handlerInvoked ctx ∈ (ServerDriver.handleWebRoute sd req route).2 ∨
         Event.middlewareRun ctx ∈ (ServerDriver.handleWebRoute sd req route).2 ∨
         Event.handlerInvoked ctx ∈ ServerDriver.handleWebSocketRoute sd req route) :
    ctx.authLevelForRequestedRoute = route.authLevel ∧ ctx.request = req := by
  have hfields : ctx = ServerDriver.dispatchContext req route →
      ctx.authLevelForRequestedRoute = route.authLevel ∧ ctx.request = req := by
    intro h2
    subst h2
    exact ⟨rfl, rfl⟩
  rcases h with h | h | h
  · rcases Bool.eq_false_or_eq_true
        (MiddlewareDriver.startMiddleware sd.middleware
          (ServerDriver.dispatchContext req route)) with hm | hm
    · unfold ServerDriver.handleWebRoute at h
      simp [hm] at h
      exact hfields h
    · unfold ServerDriver.handleWebRoute at h
      simp [hm] at h
  · rcases Bool.eq_false_or_eq_true
        (MiddlewareDriver.startMiddleware sd.middleware
          (ServerDriver.dispatchContext req route)) with hm | hm
    · unfold ServerDriver.handleWebRoute at h
      simp [hm] at h
      exact hfields h
    · unfold ServerDriver.handleWebRoute at h
      simp [hm] at h
      exact hfields h
  · unfold ServerDriver.handleWebSocketRoute at h
    simp at h
    exact hfields h

/-- C10 witness: on the accepting driver the handler for `/w` receives
exactly the context carrying `routeW.authLevel` and the request `reqW`. -/
theorem dispatch_context_immutable_witness :
    (Event.handlerInvoked (ServerDriver.dispatchContext reqW routeW) ∈
      (ServerDriver.handleWebRoute sdAccept reqW routeW).2 ∨
     Event.middlewareRun (ServerDriver.dispatchContext reqW routeW) ∈
      (ServerDriver.handleWebRoute sdAccept reqW routeW).2 ∨
     Event.handlerInvoked (ServerDriver.dispatchContext reqW routeW) ∈
      ServerDriver.handleWebSocketRoute sdAccept reqW routeW) ∧
    (ServerDriver.dispatchContext reqW routeW).authLevelForRequestedRoute =
      routeW.authLevel ∧
    (ServerDriver.dispatchContext reqW routeW).request = reqW :=
  ⟨Or.inl (by decide),
    dispatch_context_immutable sdAccept reqW routeW
      (ServerDriver.dispatchContext reqW routeW) (Or.inl (by decide))⟩

/-- C1 (divergence evidence): dispatching the PERSISTENT_CONNECTION route
`/chat` through a middleware chain that rejects every exchange, the code
never consults the middleware chain, emits `onUpgradeSuccess` anyway,
performs no transport upgrade call of its own, and returns no 403
rejection (it returns nothing), contradicting the required
reject-before-upgrade short-circuit. -/
theorem wsRoute_reject_still_upgrades :
    MiddlewareDriver.startMiddleware sdWSReject.middleware
      (ServerDriver.dispatchContext reqWS routeWS) = false ∧
    Event.onUpgradeSuccess ∈ (ServerDriver.bunFetchHandler sdWSReject reqWS).2 ∧
    ((ServerDriver.bunFetchHandler sdWSReject reqWS).2.all
      fun e => !e.isMiddlewareRun) = true ∧
    (ServerDriver.bunFetchHandler sdWSReject reqWS).1 = none :=
  ⟨rfl, by decide, by decide, rfl⟩

/-- C2 (divergence evidence): for every PERSISTENT_CONNECTION dispatch,
the code emits `onUpgradeSuccess` and logs the success line, never emits
`onUpgradeFailed` or the error line, and never invokes the transport's
upgrade entry point — the outcome does not depend on any handshake, so
failure and success are not distinguished. -/
theorem wsRoute_outcome_unconditional (sd : ServerDriver) (req : Request)
    (route : Route) :
    Event.onUpgradeSuccess ∈ ServerDriver.handleWebSocketRoute sd req route ∧
    Event.logInfo "Upgraded request to websocket." ∈
      ServerDriver.handleWebSocketRoute sd req route ∧
    ((ServerDriver.handleWebSocketRoute sd req route).all
      fun e => !(e == Event.onUpgradeFailed)) = true ∧
    ((ServerDriver.handleWebSocketRoute sd req route).all
      fun e => !(e == Event.logError "Failed to upgrade request to websocket.")) = true ∧
    ((ServerDriver.handleWebSocketRoute sd req route).all
      fun e => !e.isTransportUpgrade) = true := by
  unfold ServerDriver.handleWebSocketRoute
  simp [Event.isTransportUpgrade, Bool.not_eq_true', beq_eq_false_iff_ne]
